import Mathlib

/-! Verification of the Jumia e-commerce review scraper (src/scraper.py) and
of the review preprocessing pipeline (src/preprocessor.py).  The Python
source is shallowly embedded: each parsed HTML fragment becomes an explicit
structure, the Python dict appended to the result buffer becomes an
association list in insertion order, raised exceptions become explicit
Except values, and the filesystem effect of the export step becomes an
explicit list of operations.  Third-party library calls that the repository
does not define (the pandas day-first date parser and the spaCy lemmatizer)
are taken as function parameters. -/

/-- Value stored in one field of the emitted review dict: the scraper writes
strings, Python ints (natural numbers here, since the rating loop only
produces digit strings) and booleans. -/
inductive FieldVal where
  | str (s : String)
  | nat (n : Nat)
  | bool (b : Bool)
deriving DecidableEq

/-- A Python dict with string keys, as an association list in insertion
order, exactly as the dict literal of extract_reviews builds it. -/
abbrev Dict := List (String × FieldVal)

/-- One review container (article with classes -pvs -border _pld) as seen by
the parsing code in JumiaRetailScraper.extract_reviews: the pieces of the
container that code queries. -/
structure ReviewHtml where
  /-- Class list of the div with class stars; none when the div is absent. -/
  starsClasses : Option (List String)
  /-- Whether the container holds the literal text Verified Purchase. -/
  hasVerifiedText : Bool
  /-- Whether the container holds a div with classes bdg _vrf. -/
  hasVerifiedBadge : Bool
  /-- Stripped texts of the span elements of the div with classes -hr -pvs;
  none when that div is absent. -/
  metaSpans : Option (List String)
  /-- Stripped text of the date span; none when that span is absent. -/
  dateSpan : Option String
  /-- Stripped text of the p element with class -pvs; none when absent. -/
  textBody : Option String
deriving DecidableEq

/-- Reads a digit string as a number, the way the Python int constructor
does on a string of digits. -/
def digitsToNat (ds : List Char) : Nat :=
  ds.foldl (fun n c => n * 10 + (c.toNat - 48)) 0

/-- Test applied to one class token by the rating loop: the token starts
with an underscore and the rest is a nonempty digit string, in which case
its numeric value is produced. -/
def ratingClassValue (c : String) : Option Nat :=
  match c.data with
  | '_' :: ds => if ds ≠ [] ∧ ds.all Char.isDigit then some (digitsToNat ds) else none
  | _ => none

/-- Rating extraction loop of extract_reviews: rating starts at 0 and each
class of the stars div of the form underscore-then-digits overwrites it; no
stars div means rating 0. -/
def parse_rating (starsClasses : Option (List String)) : Nat :=
  match starsClasses with
  | none => 0
  | some classes =>
      classes.foldl (fun r c =>
        match ratingClassValue c with
        | some n => n
        | none => r) 0

/-- Removal of every occurrence of the three characters b, y, space: the
char-list form of the Python call that replaces the substring by-space with
the empty string. -/
def drop_by_token : List Char → List Char
  | 'b' :: 'y' :: ' ' :: rest => drop_by_token rest
  | c :: rest => c :: drop_by_token rest
  | [] => []

/-- User-name extraction of extract_reviews: text of the first span of the
meta div with the by-marker removed; Anonymous when the meta div is absent
or holds no span. -/
def parse_user_name (metaSpans : Option (List String)) : String :=
  match metaSpans with
  | none => "Anonymous"
  | some [] => "Anonymous"
  | some (s :: _) => String.mk (drop_by_token s.data)

/-- The dict appended to self.results for one review container, with its
seven keys in the order of the dict literal in extract_reviews. -/
def parse_review (category product_url : String) (rev : ReviewHtml) : Dict :=
  [("Category", FieldVal.str category),
   ("Product_URL", FieldVal.str product_url),
   ("User_Name", FieldVal.str (parse_user_name rev.metaSpans)),
   ("Rating", FieldVal.nat (parse_rating rev.starsClasses)),
   ("Timestamp", FieldVal.str (rev.dateSpan.getD "N/A")),
   ("Verified_Badge", FieldVal.bool (rev.hasVerifiedText || rev.hasVerifiedBadge)),
   ("Review_Text", FieldVal.str (rev.textBody.getD ""))]

/-- Review container with every optional part absent. -/
def emptyReview : ReviewHtml :=
  { starsClasses := none, hasVerifiedText := false, hasVerifiedBadge := false,
    metaSpans := none, dateSpan := none, textBody := none }

/-- One page of a review thread: the parsed containers present on it, plus
whether the next-page control (the anchor a.pg with aria-label Next Page) is
present and clickable. -/
structure ReviewPage where
  reviews : List ReviewHtml
  hasNext : Bool
deriving DecidableEq

/-- Pagination loop of extract_reviews over the successive pages of a review
thread: parse every container on the current page, then follow the
next-page control when present, stop otherwise.  Returns the emitted dicts
in order together with the number of pages visited. -/
def paginate_extract (category product_url : String) : List ReviewPage → List Dict × Nat
  | [] => ([], 0)
  | p :: rest =>
      if p.hasNext then
        ((p.reviews.map (parse_review category product_url)) ++
            (paginate_extract category product_url rest).1,
          (paginate_extract category product_url rest).2 + 1)
      else (p.reviews.map (parse_review category product_url), 1)

/-- Filename used by export_data for one category: lowercase the name,
replace spaces by underscores, surround with the data directory and csv
suffix. -/
def exportFilename (category : String) : String :=
  "data/jumia_reviews_" ++
    String.mk ((category.data.map Char.toLower).map (fun c => if c = ' ' then '_' else c)) ++
    ".csv"

/-- Filesystem operations as issued by export_data: the DataFrame to_csv
call is one direct write of all rows to the target path; a temporary path
would show up as a write elsewhere followed by a rename. -/
inductive FsOp where
  | write (path : String) (rows : List Dict)
  | rename (src dst : String)
deriving DecidableEq

/-- Filesystem operations of one export_data call: nothing on an empty
buffer, otherwise a single direct write of all rows to the category file. -/
def export_ops (category : String) (results : List Dict) : List FsOp :=
  if results.isEmpty then [] else [FsOp.write (exportFilename category) results]

/-- Contents of the target file while a direct write of the given rows is in
progress: the file is truncated and the rows are then appended in order, so
the contents observable at a crash are exactly the prefixes of the new
rows. -/
def durableDuringWrite (rows : List Dict) : List (Option (List Dict)) :=
  (List.range (rows.length + 1)).map (fun k => some (rows.take k))

/-- The save shape the specification describes: one write to a temporary
path followed by an atomic rename onto the durable path. -/
def atomicReplaceOps (ops : List FsOp) (finalPath : String) : Prop :=
  ∃ tmp rows, tmp ≠ finalPath ∧ ops = [FsOp.write tmp rows, FsOp.rename tmp finalPath]

/-- State of the scraper visible to export_data: the buffer self.results and
the csv writes performed so far, in order. -/
structure ScraperState where
  results : List Dict
  exports : List (String × List Dict)
deriving DecidableEq

/-- export_data of JumiaRetailScraper: with an empty buffer, log a warning
and return touching nothing; otherwise write the whole buffer to the
category file and clear the buffer. -/
def export_data (category : String) (s : ScraperState) : ScraperState :=
  if s.results.isEmpty then s
  else { results := [],
         exports := s.exports ++ [(exportFilename category, s.results)] }

/-- Buffer-affecting operations of a whole run: a record appended by
extract_reviews, or an export_data call for a category. -/
inductive Op where
  | appendRecord (d : Dict)
  | exportCat (category : String)
deriving DecidableEq

/-- One step of the run on the scraper state. -/
def stepOp (s : ScraperState) : Op → ScraperState
  | Op.appendRecord d => { s with results := s.results ++ [d] }
  | Op.exportCat c => export_data c s

/-- A whole run as a fold of steps from a starting state. -/
def runOps (s : ScraperState) (ops : List Op) : ScraperState :=
  ops.foldl stepOp s

/-- Number of occurrences of one record value across every exported file. -/
def countExported (d : Dict) (s : ScraperState) : Nat :=
  (s.exports.map (fun e => e.2.count d)).sum

/-- Exception kinds distinguished by the error handling of the scraper:
selenium timeouts, invalid-session errors, webdriver start failures, and
everything else. -/
inductive Exc where
  | timeout
  | invalidSession
  | webdriver
  | other
deriving DecidableEq

/-- Observable actions of the session guard. -/
inductive GuardEvent where
  | call
  | reinitBrowser
  | sleepDelay
deriving DecidableEq

/-- The _session_guard method of JumiaRetailScraper: run the wrapped
operation; on an invalid-session error re-initialize the browser and run it
a second time, returning none when that second run raises anything; every
other error of the first run propagates.  The first component is the
outcome, the second the event trace (the guard contains no sleep at all). -/
def session_guard {α : Type} (first second : Except Exc α) :
    Except Exc (Option α) × List GuardEvent :=
  match first with
  | Except.ok a => (Except.ok (some a), [GuardEvent.call])
  | Except.error Exc.invalidSession =>
      match second with
      | Except.ok a =>
          (Except.ok (some a),
           [GuardEvent.call, GuardEvent.reinitBrowser, GuardEvent.call])
      | Except.error _ =>
          (Except.ok none,
           [GuardEvent.call, GuardEvent.reinitBrowser, GuardEvent.call])
  | Except.error e => (Except.error e, [GuardEvent.call])

/-- One product card (article.prd) of a listing page: the href attribute of
its a.core anchor, when that anchor exists and carries the attribute. -/
structure Article where
  href : Option String
deriving DecidableEq

/-- Whether a URL string starts with a slash, stated on the character
list of the string. -/
def starts_with_slash (u : String) : Bool := u.data.head? = some '/'

/-- URL normalization of discover_products: prefix the site origin when the
href starts with a slash, keep it unchanged otherwise. -/
def normalize_href (u : String) : String :=
  if starts_with_slash u then "https://www.jumia.com.ng" ++ u else u

/-- Link extraction of discover_products over the parsed article elements:
keep each anchor with a truthy (present and non-empty) href, normalized, in
document order, with no deduplication. -/
def discover_products (arts : List Article) : List String :=
  arts.filterMap (fun a =>
    match a.href with
    | some u => if u = "" then none else some (normalize_href u)
    | none => none)

/-- One product as the extractor sees it, with fault-injection flags for the
two waits whose outcome extract_reviews distinguishes. -/
structure ProductModel where
  url : String
  hasSeeAll : Bool
  firstArticleTimeout : Bool
  pages : List ReviewPage
deriving DecidableEq

/-- extract_reviews as a fallible operation: a timeout waiting for the
see-all-reviews control is caught inside and yields zero records as a
success; a timeout waiting for the first review container raises; otherwise
the pagination loop runs to completion. -/
def extract_reviews_r (category : String) (p : ProductModel) : Except Exc (List Dict) :=
  if p.hasSeeAll then
    if p.firstArticleTimeout then Except.error Exc.timeout
    else Except.ok (paginate_extract category p.url p.pages).1
  else Except.ok []

/-- A deterministic operation run under the session guard: both attempts
behave the same, and only the outcome is kept. -/
def run_guarded {α : Type} (r : Except Exc α) : Except Exc (Option α) :=
  (session_guard r r).1

/-- One category with its fault-injection flag for the product-grid wait. -/
structure CategoryModel where
  name : String
  gridTimeout : Bool
  articles : List Article
  products : List ProductModel
deriving DecidableEq

/-- discover_products as a fallible operation: the bounded wait for the
product grid raises a timeout when the grid never appears. -/
def discover_products_r (c : CategoryModel) : Except Exc (List String) :=
  if c.gridTimeout then Except.error Exc.timeout
  else Except.ok (discover_products c.articles)

/-- Product loop of run_scraper inside one category: extract each product
under the session guard; the first uncaught exception propagates. -/
def process_products (category : String) : List ProductModel → Except Exc Unit
  | [] => Except.ok ()
  | p :: rest =>
      match run_guarded (extract_reviews_r category p) with
      | Except.error e => Except.error e
      | Except.ok _ => process_products category rest

/-- Work done by run_scraper for one category: discovery under the guard,
then every product; the first uncaught exception aborts the category and
propagates. -/
def process_category (c : CategoryModel) : Except Exc Unit :=
  match run_guarded (discover_products_r c) with
  | Except.error e => Except.error e
  | Except.ok _ => process_products c.name c.products

/-- One pass of run_scraper over the category list: the names of the
categories fully processed in order, and the first uncaught exception if
any; the categories after a failing one are never reached in that pass. -/
def attempt_go : List CategoryModel → List String × Option Exc
  | [] => ([], none)
  | c :: rest =>
      match process_category c with
      | Except.error e => ([], some e)
      | Except.ok _ => (c.name :: (attempt_go rest).1, (attempt_go rest).2)

/-- One pass including browser start: a webdriver start failure fails the
pass before any category is touched. -/
def attempt_run (initOk : Bool) (cats : List CategoryModel) : List String × Option Exc :=
  if initOk then attempt_go cats else ([], some Exc.webdriver)

/-- User-visible events of the auto-restart loop of run_scraper. -/
inductive RunEv where
  | processed (name : String)
  | restart
  | done
deriving DecidableEq

/-- The while-true loop of run_scraper: run one pass; on success stop, on
any exception shut down, back off and restart the entire run from the first
category.  The fuel argument bounds how many passes are unfolded. -/
def run_model : Nat → Bool → List CategoryModel → List RunEv
  | 0, _, _ => []
  | Nat.succ n, initOk, cats =>
      match attempt_run initOk cats with
      | (names, none) => names.map RunEv.processed ++ [RunEv.done]
      | (names, some _) => names.map RunEv.processed ++ RunEv.restart :: run_model n initOk cats

/-- Buffer and persistence events in orchestration order. -/
inductive TraceEv where
  | append (d : Dict)
  | exportCall (category : String)
deriving DecidableEq

/-- Events produced while extracting one product: one append per emitted
record and nothing else; a raised extraction appends nothing here. -/
def extract_events (category : String) (p : ProductModel) : List TraceEv :=
  match extract_reviews_r category p with
  | Except.ok ds => ds.map TraceEv.append
  | Except.error _ => []

/-- Events of one category in run_scraper: every product is extracted, then
export_data is invoked exactly once, at the end. -/
def category_events (c : CategoryModel) : List TraceEv :=
  (c.products.map (fun p => extract_events c.name p)).flatten ++
    [TraceEv.exportCall c.name]

/-- Recognizer of persistence invocations in a trace. -/
def isExportEv : TraceEv → Bool
  | TraceEv.exportCall _ => true
  | _ => false

/-- Number of persistence invocations in a trace. -/
def countExportEv (l : List TraceEv) : Nat := (l.filter isExportEv).length

/-- Product with a single review page of fifty containers and no next-page
control. -/
def prodFifty : ProductModel :=
  { url := "https://www.jumia.com.ng/p50", hasSeeAll := true,
    firstArticleTimeout := false,
    pages := [{ reviews := List.replicate 50 emptyReview, hasNext := false }] }

/-- A three-page review thread whose two leading pages carry a next-page
control and whose last page does not. -/
def pagesSample : List ReviewPage :=
  [{ reviews := [emptyReview], hasNext := true },
   { reviews := [{ emptyReview with textBody := some "Nice phone" }, emptyReview],
     hasNext := true },
   { reviews := [{ emptyReview with dateSpan := some "01-02-2024" }], hasNext := false }]

/-- One raw CSV row as read back by the preprocessor; a missing cell (pandas
NaN) is none.  The scraper writes exactly these seven columns. -/
structure RawRow where
  Category : Option String
  Product_URL : Option String
  User_Name : Option String
  Rating : Option String
  Timestamp : Option String
  Verified_Badge : Option String
  Review_Text : Option String
deriving DecidableEq

/-- Keep-first-occurrence duplicate removal, the behaviour of the pandas
drop_duplicates call in clean_structure. -/
def drop_duplicates_aux (seen : List RawRow) : List RawRow → List RawRow
  | [] => []
  | r :: rest =>
      if r ∈ seen then drop_duplicates_aux seen rest
      else r :: drop_duplicates_aux (r :: seen) rest

/-- Duplicate removal over a whole row list. -/
def drop_duplicates (rows : List RawRow) : List RawRow :=
  drop_duplicates_aux [] rows

/-- clean_structure of JumiaPreprocessor: drop exact duplicate rows, drop
rows with a missing Review_Text cell, fill missing user names with
Anonymous. -/
def clean_structure (rows : List RawRow) : List RawRow :=
  ((drop_duplicates rows).filter (fun r => r.Review_Text.isSome)).map
    (fun r => { r with User_Name := some (r.User_Name.getD "Anonymous") })

/-- First maximal run of digits in a character list, the one-group digit
regex extraction used on the Rating column. -/
def firstDigitRun : List Char → Option (List Char)
  | [] => none
  | c :: rest =>
      if c.isDigit then some (c :: rest.takeWhile Char.isDigit)
      else firstDigitRun rest

/-- Rating conversion of format_features: cast the cell to str, extract the
first digit group, fall back to 0 when there is none. -/
def extract_rating (s : String) : Nat :=
  match firstDigitRun s.data with
  | some ds => digitsToNat ds
  | none => 0

/-- The str image of a possibly missing cell: pandas NaN prints as nan. -/
def pyStr (o : Option String) : String := o.getD "nan"

/-- Verified_Badge conversion of format_features: lowercase the printed cell
and compare against the three truthy tokens. -/
def parse_verified (s : String) : Bool :=
  String.mk (s.data.map Char.toLower) ∈ (["true", "1", "verified purchase"] : List String)

/-- Row after format_features: Rating an integer, Verified_Badge a boolean,
Timestamp a parsed date or none (pandas NaT under coercing errors). -/
structure FormattedRow where
  Category : Option String
  Product_URL : Option String
  User_Name : Option String
  Rating : Nat
  Timestamp : Option Nat
  Verified_Badge : Bool
  Review_Text : Option String
deriving DecidableEq

/-- Per-row work of format_features.  The day-first date parser is the
pandas to_datetime call, a third-party function, and is a parameter; a
missing timestamp cell stays unparsed (NaT). -/
def format_row (parseDate : String → Option Nat) (r : RawRow) : FormattedRow :=
  { Category := r.Category, Product_URL := r.Product_URL, User_Name := r.User_Name,
    Rating := extract_rating (pyStr r.Rating),
    Timestamp := r.Timestamp.bind parseDate,
    Verified_Badge := parse_verified (pyStr r.Verified_Badge),
    Review_Text := r.Review_Text }

/-- format_features of JumiaPreprocessor: convert the columns row by row,
then drop the rows whose timestamp did not parse. -/
def format_features (parseDate : String → Option Nat) (rows : List RawRow) :
    List FormattedRow :=
  (rows.map (format_row parseDate)).filter (fun r => r.Timestamp.isSome)

/-- Characters kept by the punctuation-deleting regex of normalize_text:
word characters and whitespace. -/
def keepWordChar (c : Char) : Bool := c.isAlphanum || c = '_' || c.isWhitespace

/-- Reduction of every run of three or more equal characters to a single
one, the repeated-character regex substitution of normalize_text: a
character is dropped exactly when the previous input character equals it
and either the character before that or the next one also equals it. -/
def squeezeRepeats (prev2 prev1 : Option Char) : List Char → List Char
  | [] => []
  | c :: rest =>
      if prev1 = some c ∧ (prev2 = some c ∨ rest.head? = some c) then
        squeezeRepeats prev1 (some c) rest
      else c :: squeezeRepeats prev1 (some c) rest

/-- normalize_text of JumiaPreprocessor: lowercase, delete punctuation,
squeeze long character repetitions, then lemmatize and drop stopwords and
spaces with spaCy; the spaCy model is third-party and is a parameter that
returns the kept lemmas of its input. -/
def normalize_text (lemmas : String → List String) (text : String) : String :=
  String.intercalate " "
    (lemmas (String.mk (squeezeRepeats none none
      ((text.data.map Char.toLower).filter keepWordChar))))

/-- Row after process_nlp, with the three derived columns added. -/
structure ProcessedRow where
  Category : Option String
  Product_URL : Option String
  User_Name : Option String
  Rating : Nat
  Timestamp : Option Nat
  Verified_Badge : Bool
  Review_Text : Option String
  Text_Length : Nat
  Word_Count : Nat
  Cleaned_Text : String
deriving DecidableEq

/-- Helper of the whitespace word count: scan the characters, counting each
entry into a word. -/
def countWordsAux : Bool → List Char → Nat
  | _, [] => 0
  | inWord, c :: rest =>
      if c.isWhitespace then countWordsAux false rest
      else if inWord then countWordsAux true rest
      else countWordsAux true rest + 1

/-- Python-style whitespace word count, the argument-free str.split length
used for the Word_Count column. -/
def countWords (s : String) : Nat := countWordsAux false s.data

/-- Per-row work of process_nlp: length and word count of the review text as
printed by str, plus the normalized text (a non-string cell would give the
empty string, per the isinstance check in normalize_text). -/
def nlp_row (lemmas : String → List String) (r : FormattedRow) : ProcessedRow :=
  { Category := r.Category, Product_URL := r.Product_URL, User_Name := r.User_Name,
    Rating := r.Rating, Timestamp := r.Timestamp,
    Verified_Badge := r.Verified_Badge, Review_Text := r.Review_Text,
    Text_Length := (pyStr r.Review_Text).length,
    Word_Count := countWords (pyStr r.Review_Text),
    Cleaned_Text :=
      match r.Review_Text with
      | some s => normalize_text lemmas s
      | none => "" }

/-- process_nlp of JumiaPreprocessor: add the derived columns row by row. -/
def process_nlp (lemmas : String → List String) (rows : List FormattedRow) :
    List ProcessedRow :=
  rows.map (nlp_row lemmas)

/-- The full preprocessing pipeline in the order of the main script:
clean_structure, then format_features, then process_nlp. -/
def full_pipeline (parseDate : String → Option Nat) (lemmas : String → List String)
    (rows : List RawRow) : List ProcessedRow :=
  process_nlp lemmas (format_features parseDate (clean_structure rows))

/-- No append event is a persistence invocation. -/
theorem countExportEv_map_append (ds : List Dict) :
    countExportEv (ds.map TraceEv.append) = 0 := by
  induction ds with
  | nil => rfl
  | cons d ds ih =>
      rw [List.map_cons]
      rw [show countExportEv (TraceEv.append d :: ds.map TraceEv.append) =
        countExportEv (ds.map TraceEv.append) from by
          simp [countExportEv, List.filter_cons, isExportEv]]
      exact ih

/-- Extracting one product never invokes persistence. -/
theorem extract_events_no_export (category : String) (p : ProductModel) :
    countExportEv (extract_events category p) = 0 := by
  unfold extract_events
  cases extract_reviews_r category p with
  | ok ds => exact countExportEv_map_append ds
  | error e => rfl

/-- Persistence invocations add over trace concatenation. -/
theorem countExportEv_append (l m : List TraceEv) :
    countExportEv (l ++ m) = countExportEv l + countExportEv m := by
  simp [countExportEv, List.filter_append]

/-- The product loop of one category invokes persistence zero times. -/
theorem category_products_no_export (name : String) (ps : List ProductModel) :
    countExportEv ((ps.map (fun p => extract_events name p)).flatten) = 0 := by
  induction ps with
  | nil => rfl
  | cons p ps ih =>
      simp [List.map_cons, List.flatten_cons, countExportEv_append,
        extract_events_no_export name p, ih]

/-- Keep-first duplicate removal never lengthens a list. -/
theorem drop_duplicates_aux_length_le (l : List RawRow) :
    ∀ seen : List RawRow, (drop_duplicates_aux seen l).length ≤ l.length := by
  induction l with
  | nil => intro seen; simp [drop_duplicates_aux]
  | cons r rest ih =>
      intro seen
      by_cases h : r ∈ seen
      · simp only [drop_duplicates_aux, if_pos h, List.length_cons]
        exact le_trans (ih seen) (Nat.le_succ _)
      · simp only [drop_duplicates_aux, if_neg h, List.length_cons]
        exact Nat.succ_le_succ (ih (r :: seen))

/-- Conservation of one record value across a run: each occurrence appended
so far is either still in the buffer or in exactly one export. -/
theorem runOps_count (d : Dict) (ops : List Op) :
    ∀ s : ScraperState,
      countExported d (runOps s ops) + (runOps s ops).results.count d =
        countExported d s + s.results.count d + ops.count (Op.appendRecord d) := by
  induction ops with
  | nil => intro s; simp [runOps]
  | cons op ops ih =>
      intro s
      have h := ih (stepOp s op)
      rw [show runOps s (op :: ops) = runOps (stepOp s op) ops from rfl, h]
      cases op with
      | appendRecord e =>
          by_cases he : e = d
          · subst he
            simp [stepOp, countExported, List.count_append, List.count_cons]
            omega
          · simp [stepOp, countExported, List.count_append, List.count_cons, he]
      | exportCat c =>
          by_cases hr : s.results.isEmpty
          · simp [stepOp, export_data, hr, List.count_cons]
          · simp [stepOp, export_data, hr, countExported, List.map_append,
              List.sum_append, List.count_cons]

/-- C1 (counterexample): the dict appended by extract_reviews for a review
container with every optional part absent carries no Review_Title key at
all, against the claim that every emitted record carries all eight fields
including Review_Title. -/
theorem c1_counterexample :
    ¬ ("Review_Title" ∈ (parse_review "Computing"
      "https://www.jumia.com.ng/p" emptyReview).map Prod.fst) := by decide

/-- C1 (amended): every record emitted by extract_reviews has exactly the
seven keys Category, Product_URL, User_Name, Rating, Timestamp,
Verified_Badge and Review_Text, in that order and each with a typed value,
and the typed defaults hold when every optional part of the container is
absent (User_Name Anonymous, Rating 0, Timestamp the N/A token, Review_Text
empty, Verified_Badge false); Review_Title is never emitted. -/
theorem c1_amended : ∀ (category product_url : String) (rev : ReviewHtml),
    (parse_review category product_url rev).map Prod.fst =
      ["Category", "Product_URL", "User_Name", "Rating", "Timestamp",
        "Verified_Badge", "Review_Text"] ∧
    parse_review category product_url emptyReview =
      [("Category", FieldVal.str category),
       ("Product_URL", FieldVal.str product_url),
       ("User_Name", FieldVal.str "Anonymous"),
       ("Rating", FieldVal.nat 0),
       ("Timestamp", FieldVal.str "N/A"),
       ("Verified_Badge", FieldVal.bool false),
       ("Review_Text", FieldVal.str "")] := by
  intro category product_url rev
  exact ⟨rfl, rfl⟩

/-- C2 (counterexample): a stars div with class list stars, _7 yields the
emitted rating 7, outside the claimed inclusive range 0 to 5. -/
theorem c2_counterexample :
    parse_rating (some ["stars", "_7"]) = 7 ∧
    ¬ (parse_rating (some ["stars", "_7"]) ≤ 5) := by
  exact ⟨by decide, by decide⟩

/-- C2 (amended): the rating starts at 0 and every class of the stars div of
the form underscore-then-digits overwrites it, so the last such class wins
and no upper bound of 5 is enforced; with no stars div, or no matching
class, the rating stays 0.  The extractor itself parses no out-of-5 string:
the digit extraction on the Rating column happens downstream, in
format_features of the preprocessor. -/
theorem c2_amended : ∀ (cs : List String) (c : String),
    parse_rating none = 0 ∧
    parse_rating (some []) = 0 ∧
    parse_rating (some (cs ++ [c])) =
      (match ratingClassValue c with
       | some n => n
       | none => parse_rating (some cs)) ∧
    extract_rating "4 out of 5" = 4 := by
  intro cs c
  refine ⟨rfl, rfl, ?_, by decide⟩
  simp only [parse_rating, List.foldl_append, List.foldl_cons, List.foldl_nil]

/-- C3 (counterexample): export_data issues a single direct write onto the
durable category file rather than a temporary write followed by an atomic
rename, and during that write the durable file passes through a state (here
one row of the two new rows) that is neither the previously committed
content nor the full new content. -/
theorem c3_counterexample :
    ¬ atomicReplaceOps
        (export_ops "Computing" [[("Rating", FieldVal.nat 5)], [("Rating", FieldVal.nat 4)]])
        (exportFilename "Computing") ∧
    export_ops "Computing" [[("Rating", FieldVal.nat 5)], [("Rating", FieldVal.nat 4)]] =
      [FsOp.write (exportFilename "Computing")
        [[("Rating", FieldVal.nat 5)], [("Rating", FieldVal.nat 4)]]] ∧
    some [[("Rating", FieldVal.nat 5)]] ∈
      durableDuringWrite [[("Rating", FieldVal.nat 5)], [("Rating", FieldVal.nat 4)]] ∧
    some [[("Rating", FieldVal.nat 5)]] ≠
      (some [[("Rating", FieldVal.nat 3)]] : Option (List Dict)) ∧
    some [[("Rating", FieldVal.nat 5)]] ≠
      (some [[("Rating", FieldVal.nat 5)], [("Rating", FieldVal.nat 4)]] : Option (List Dict)) := by
  refine ⟨?_, rfl, by decide, by decide, by decide⟩
  rintro ⟨tmp, rows, hne, heq⟩
  have h := congrArg List.length heq
  simp [export_ops] at h

/-- C3 (amended): a call of export_data with a non-empty buffer issues
exactly one write, directly onto the durable category file, with no
temporary path and no rename; during that write the durable file passes
through every prefix of the new rows, beginning with the truncated empty
state (so the previously committed content is already gone) and ending with
the full new content, so a crash mid-write can leave a partial file. -/
theorem c3_amended : ∀ (category : String) (results : List Dict),
    results ≠ [] →
      export_ops category results = [FsOp.write (exportFilename category) results] ∧
      some ([] : List Dict) ∈ durableDuringWrite results ∧
      some results ∈ durableDuringWrite results := by
  intro category results h
  refine ⟨?_, ?_, ?_⟩
  · simp [export_ops, List.isEmpty_iff, h]
  · unfold durableDuringWrite
    exact List.mem_map.mpr ⟨0, by simp [List.mem_range], rfl⟩
  · unfold durableDuringWrite
    exact List.mem_map.mpr ⟨results.length, by simp [List.mem_range], by simp⟩

/-- Witness for C3 (amended) at a concrete category and one-record buffer. -/
theorem c3_amended_witness :
    (([[("Rating", FieldVal.nat 5)]] : List Dict) ≠ []) ∧
    (export_ops "Computing" [[("Rating", FieldVal.nat 5)]] =
        [FsOp.write (exportFilename "Computing") [[("Rating", FieldVal.nat 5)]]] ∧
      some ([] : List Dict) ∈ durableDuringWrite [[("Rating", FieldVal.nat 5)]] ∧
      some [[("Rating", FieldVal.nat 5)]] ∈ durableDuringWrite [[("Rating", FieldVal.nat 5)]]) :=
  ⟨by decide, c3_amended "Computing" [[("Rating", FieldVal.nat 5)]] (by decide)⟩

/-- C4 (counterexample): with an operation whose every attempt raises the
invalid-session error, the guard makes exactly two calls (one retry, not the
claimed budget of two retries, which would give three calls), sleeps zero
times (no delay precedes the retry), and returns the none signal. -/
theorem c4_counterexample :
    (session_guard (Except.error Exc.invalidSession)
      (Except.error Exc.invalidSession : Except Exc Nat)).2.count GuardEvent.call = 2 ∧
    ¬ ((session_guard (Except.error Exc.invalidSession)
      (Except.error Exc.invalidSession : Except Exc Nat)).2.count GuardEvent.call = 3) ∧
    (session_guard (Except.error Exc.invalidSession)
      (Except.error Exc.invalidSession : Except Exc Nat)).2.count GuardEvent.sleepDelay = 0 ∧
    (session_guard (Except.error Exc.invalidSession)
      (Except.error Exc.invalidSession : Except Exc Nat)).1 = Except.ok none := by
  refine ⟨by decide, by decide, by decide, rfl⟩

/-- C4 (amended): on an invalid-session failure the guard destroys and
recreates the session and retries the operation exactly once, with no delay
before the retry: the guard never makes more than two calls and never
sleeps; after an invalid-session first attempt it never raises, and when
the retry also raises (any error) it returns the recoverable none signal. -/
theorem c4_amended : ∀ (first second : Except Exc Nat) (e : Exc),
    (session_guard first second).2.count GuardEvent.call ≤ 2 ∧
    (session_guard first second).2.count GuardEvent.sleepDelay = 0 ∧
    (session_guard (Except.error Exc.invalidSession) second).1 ≠ Except.error e ∧
    (session_guard (Except.error Exc.invalidSession)
      (Except.error (α := Nat) e)).1 = Except.ok none := by
  intro first second e
  refine ⟨?_, ?_, ?_, ?_⟩
  · cases first with
    | ok a => simp [session_guard, List.count_cons, List.count_nil]
    | error ef =>
        cases ef <;> cases second <;>
          simp [session_guard, List.count_cons, List.count_nil]
  · cases first with
    | ok a => simp [session_guard, List.count_cons, List.count_nil]
    | error ef =>
        cases ef <;> cases second <;>
          simp [session_guard, List.count_cons, List.count_nil]
  · cases second with
    | ok b => simp [session_guard]
    | error e2 => simp [session_guard]
  · rfl

/-- C5 (counterexample): extracting a product whose single review page holds
fifty containers appends fifty records and invokes persistence zero times,
against the claim that persistence is invoked at every fifty-record batch
boundary during extraction. -/
theorem c5_counterexample :
    (extract_events "Computing" prodFifty).length = 50 ∧
    countExportEv (extract_events "Computing" prodFifty) = 0 := by
  exact ⟨by decide, by decide⟩

/-- C5 (amended): no checkpoint at all occurs during review extraction,
however many records are appended; persistence is invoked exactly once per
category, as the last event, after all of its products were processed. -/
theorem c5_amended : ∀ (category : String) (p : ProductModel) (c : CategoryModel),
    countExportEv (extract_events category p) = 0 ∧
    countExportEv (category_events c) = 1 ∧
    (category_events c).getLast? = some (TraceEv.exportCall c.name) := by
  intro category p c
  refine ⟨extract_events_no_export category p, ?_, ?_⟩
  · rw [category_events, countExportEv_append, category_products_no_export]
    simp [countExportEv, List.filter_cons, isExportEv]
  · rw [category_events]
    exact List.getLast?_concat _

/-- C6 (counterexample): two product cards carrying the same href produce a
link list with a duplicate, against the claim that discovery returns a
duplicate-free set of URLs. -/
theorem c6_counterexample :
    ¬ (discover_products
        [{ href := some "/iphone-15.html" }, { href := some "/iphone-15.html" }]).Nodup := by
  decide

/-- C6 (amended): discovery returns a list of links in document order,
possibly containing duplicates, never longer than the article list; an
empty article list (a grid that appeared but holds no product card) yields
the empty list rather than an error; every href starting with a slash,
protocol-relative ones included, is prefixed with the site origin, and other
hrefs are kept unchanged. -/
theorem c6_amended : ∀ (arts : List Article),
    discover_products [] = [] ∧
    (discover_products arts).length ≤ arts.length ∧
    normalize_href "/iphone-15.html" = "https://www.jumia.com.ng/iphone-15.html" ∧
    normalize_href "//cdn.jumia.is/x.jpg" = "https://www.jumia.com.ng//cdn.jumia.is/x.jpg" ∧
    normalize_href "https://www.jumia.com.ng/x" = "https://www.jumia.com.ng/x" := by
  intro arts
  exact ⟨rfl, List.length_filterMap_le _ _, by decide, by decide, by decide⟩

/-- C7 (counterexample): with a first category whose product grid times out
and a healthy second category, the pass aborts with the timeout and the
second category is never processed (it is not merely the affected category
that is skipped), and with a webdriver start failure the loop keeps
restarting instead of stopping the process outright. -/
theorem c7_counterexample :
    attempt_run true
        [{ name := "Mobile Phones", gridTimeout := true, articles := [], products := [] },
         { name := "Computing", gridTimeout := false, articles := [], products := [] }] =
      ([], some Exc.timeout) ∧
    RunEv.processed "Computing" ∉
      run_model 1 true
        [{ name := "Mobile Phones", gridTimeout := true, articles := [], products := [] },
         { name := "Computing", gridTimeout := false, articles := [], products := [] }] ∧
    run_model 2 false
        [{ name := "Mobile Phones", gridTimeout := true, articles := [], products := [] }] =
      [RunEv.restart, RunEv.restart] := by
  exact ⟨rfl, by decide, rfl⟩

/-- C7 (amended): a timeout on a required element passes through the session
guard untouched (the guard catches only invalid-session errors), so a
product-grid timeout aborts the whole pass for its category and everything
after it; a timeout on the optional see-all-reviews control is caught inside
extraction and skips only that product; and no failure stops the process
outright, since even a webdriver start failure makes the top-level loop back
off and restart the entire run. -/
theorem c7_amended : ∀ (second : Except Exc (List String)) (name url : String)
    (arts : List Article) (prods : List ProductModel) (b : Bool)
    (pages : List ReviewPage) (n : Nat) (cats : List CategoryModel),
    (session_guard (Except.error Exc.timeout) second).1 = Except.error Exc.timeout ∧
    process_category
        { name := name, gridTimeout := true, articles := arts, products := prods } =
      Except.error Exc.timeout ∧
    extract_reviews_r name
        { url := url, hasSeeAll := false, firstArticleTimeout := b, pages := pages } =
      Except.ok [] ∧
    run_model (n + 1) false cats = RunEv.restart :: run_model n false cats := by
  intro second name url arts prods b pages n cats
  exact ⟨rfl, rfl, rfl, rfl⟩

/-- C8 (confirmed): over a finite review thread whose non-final pages carry
the next-page control and whose last page does not, the pagination loop
terminates, visits each page exactly once (the visit count equals the page
count), and returns exactly the concatenation of the records of all pages in
order, with no omission and no duplication. -/
theorem c8_confirmed : ∀ (category product_url : String) (pages : List ReviewPage),
    pages.dropLast.all (fun p => p.hasNext) = true →
    pages.getLast?.all (fun p => !p.hasNext) = true →
      (paginate_extract category product_url pages).1 =
        (pages.map (fun p => p.reviews.map (parse_review category product_url))).flatten ∧
      (paginate_extract category product_url pages).2 = pages.length := by
  intro category product_url pages
  induction pages with
  | nil => intro h1 h2; exact ⟨rfl, rfl⟩
  | cons p rest ih =>
      intro h1 h2
      cases rest with
      | nil =>
          have hp : p.hasNext = false := by simpa using h2
          refine ⟨?_, ?_⟩ <;> simp [paginate_extract, hp]
      | cons q rest2 =>
          rw [show (p :: q :: rest2).dropLast = p :: (q :: rest2).dropLast from rfl,
            List.all_cons, Bool.and_eq_true] at h1
          obtain ⟨hp, h1r⟩ := h1
          rw [List.getLast?_cons_cons] at h2
          obtain ⟨ihr, ihn⟩ := ih h1r h2
          have hstep : paginate_extract category product_url (p :: q :: rest2) =
              ((p.reviews.map (parse_review category product_url)) ++
                  (paginate_extract category product_url (q :: rest2)).1,
                (paginate_extract category product_url (q :: rest2)).2 + 1) := by
            rw [paginate_extract, hp]
            simp
          rw [hstep]
          refine ⟨?_, ?_⟩
          · rw [show (p :: q :: rest2).map
                (fun p => p.reviews.map (parse_review category product_url)) =
                p.reviews.map (parse_review category product_url) ::
                  (q :: rest2).map
                    (fun p => p.reviews.map (parse_review category product_url)) from rfl,
              List.flatten_cons, ihr]
          · rw [show ((p :: q :: rest2).length = (q :: rest2).length + 1) from rfl, ihn]

/-- Witness for C8 at a concrete three-page thread. -/
theorem c8_witness :
    (pagesSample.dropLast.all (fun p => p.hasNext) = true) ∧
    (pagesSample.getLast?.all (fun p => !p.hasNext) = true) ∧
    ((paginate_extract "Electronics" "https://www.jumia.com.ng/p" pagesSample).1 =
        (pagesSample.map (fun p =>
          p.reviews.map (parse_review "Electronics" "https://www.jumia.com.ng/p"))).flatten ∧
      (paginate_extract "Electronics" "https://www.jumia.com.ng/p" pagesSample).2 =
        pagesSample.length) :=
  ⟨by decide, by decide,
    c8_confirmed "Electronics" "https://www.jumia.com.ng/p" pagesSample
      (by decide) (by decide)⟩

/-- C9 (confirmed): for every date parser and every lemmatizer, the
preprocessing pipeline never emits more rows than it was given, and its
output is exactly one enriched row per valid input row: the rows surviving
duplicate removal, the review-text presence check and the timestamp parse,
each mapped through the formatting and enrichment of format_features and
process_nlp, so no row is ever multiplied. -/
theorem c9_confirmed : ∀ (parseDate : String → Option Nat)
    (lemmas : String → List String) (rows : List RawRow),
    (full_pipeline parseDate lemmas rows).length ≤ rows.length ∧
    full_pipeline parseDate lemmas rows =
      ((clean_structure rows).filter (fun r => (r.Timestamp.bind parseDate).isSome)).map
        (fun r => nlp_row lemmas (format_row parseDate r)) := by
  intro parseDate lemmas rows
  constructor
  · have h1 : (full_pipeline parseDate lemmas rows).length =
        (format_features parseDate (clean_structure rows)).length := by
      simp [full_pipeline, process_nlp]
    have h2 : (format_features parseDate (clean_structure rows)).length ≤
        (clean_structure rows).length := by
      rw [format_features]
      exact le_trans (List.length_filter_le _ _) (by simp)
    have h3 : (clean_structure rows).length ≤ rows.length := by
      rw [clean_structure]
      simp only [List.length_map]
      exact le_trans (List.length_filter_le _ _)
        (drop_duplicates_aux_length_le rows [])
    omega
  · rw [full_pipeline, process_nlp, format_features, List.filter_map, List.map_map]
    rfl

/-- C10 (confirmed): an export with an empty buffer writes nothing and
changes nothing; an export with a non-empty buffer records exactly one write
of the whole buffer and empties the buffer; and over any run of appends and
exports started from the initial state, each record value occurs across all
exported files at most as many times as it was appended, so no scraped
record is ever exported twice. -/
theorem c10_confirmed : ∀ (category : String) (es : List (String × List Dict))
    (d : Dict) (ds : List Dict) (ops : List Op),
    export_data category { results := [], exports := es } =
      { results := [], exports := es } ∧
    export_data category { results := d :: ds, exports := es } =
      { results := [],
        exports := es ++ [(exportFilename category, d :: ds)] } ∧
    countExported d (runOps { results := [], exports := [] } ops) ≤
      ops.count (Op.appendRecord d) := by
  intro category es d ds ops
  refine ⟨rfl, rfl, ?_⟩
  have h := runOps_count d ops { results := [], exports := [] }
  rw [show countExported d { results := [], exports := [] } = 0 from rfl,
    show ({ results := [], exports := [] } : ScraperState).results.count d = 0 from rfl] at h
  omega
